import Mathlib

/-!
Verification of the senaite.jsonapi glue layer (src/senaite/jsonapi/api.py)
against its natural-language specification.

The repository is a JSON adapter over a host CMS (Plone/Zope).  Host
primitives (object database, catalog, workflow engine, adapters) are
modelled as explicit environments of functions; the repository's own
glue code is embedded shallowly as Lean functions over those
environments.  Failures raised through `fail(status, msg)` (the
repository's `APIError`) are modelled with `Except`.
-/

set_option autoImplicit false

namespace SenaiteJsonapi

/-- The payload of the repository's `APIError` exception as raised by
`fail(status, msg)` in api.py: an HTTP status code and a message. -/
structure APIErr where
  status : Nat
  msg : String
  deriving DecidableEq, Repr

/-- A JSON-friendly value, the shape the adapter layer produces. -/
inductive JVal where
  | null
  | bool (b : Bool)
  | num (n : Nat)
  | str (s : String)
  | arr (xs : List JVal)
  | dict (fields : List (String × JVal))

/-- A request record: a JSON dictionary with string values, in insertion
order (Python dict semantics; keys are unique in an actual dict). -/
abbrev Rec := List (String × String)

/-- `record.get(key, None)` / `record[key]`: first binding of the key. -/
def rec_get : Rec → String → Option String
  | [], _ => none
  | (k, v) :: rest, key => if k = key then some v else rec_get rest key

/-- The remaining dictionary after `record.pop(key, None)`. -/
def rec_remove (r : Rec) (key : String) : Rec :=
  r.filter (fun kv => kv.1 ≠ key)

/-- Python truthiness of an optional string value: `None` and the empty
string are falsy. -/
def otruthy : Option String → Bool
  | none => false
  | some s => s ≠ ""

-- ---------------------------------------------------------------------------
-- C6: get_object_by_record (api.py lines 1180-1204)
-- ---------------------------------------------------------------------------

namespace Resolve

/-- Content objects are abstract tokens; the host owns object identity. -/
abbrev PObj := String

/-- Host-side resolvers used by `get_object_by_record`:
`get_object_by_uid` proxies `senaite.api.get_object_by_uid` (default
`None`), `get_object_by_path` wraps `restrictedTraverse` and can raise
an `APIError` 404. -/
structure RecordEnv where
  get_object_by_uid : String → Option PObj
  get_object_by_path : String → Except APIErr (Option PObj)

/-- Shallow embedding of `get_object_by_record(record)`:
an empty (falsy) record yields `None`; otherwise the object is resolved
by the truthy `uid` key, else the truthy `path` key, else by joining
truthy `parent_path` and `id` with a slash; else `None`. -/
def get_object_by_record (env : RecordEnv) (record : Rec) : Except APIErr (Option PObj) :=
  if record.isEmpty then Except.ok none
  else if otruthy (rec_get record "uid") then
    Except.ok (env.get_object_by_uid ((rec_get record "uid").getD ""))
  else if otruthy (rec_get record "path") then
    env.get_object_by_path ((rec_get record "path").getD "")
  else if otruthy (rec_get record "parent_path") && otruthy (rec_get record "id") then
    env.get_object_by_path
      (((rec_get record "parent_path").getD "") ++ "/" ++ ((rec_get record "id").getD ""))
  else Except.ok none

/-- Concrete environment used to witness the C6 theorem. -/
def envC6 : RecordEnv :=
  { get_object_by_uid := fun u => if u = "uid-1" then some "objU" else none
    get_object_by_path := fun p => Except.ok (some ("obj-at:" ++ p)) }

end Resolve

-- ---------------------------------------------------------------------------
-- C7: portal_type_to_resource / resource_to_portal_type (api.py 1012-1054)
-- ---------------------------------------------------------------------------

namespace Resources

/-- Python `str.lower()` (ASCII, which covers portal type names). -/
def py_lower (s : String) : String :=
  String.mk (s.toList.map Char.toLower)

/-- Python `str.replace(" ", "")`: drop every space character. -/
def py_replace_space (s : String) : String :=
  String.mk (s.toList.filter (fun c => c ≠ ' '))

/-- Shallow embedding of `portal_type_to_resource(portal_type)`:
`resource = portal_type.lower()` followed by `resource.replace(" ", "")`. -/
def portal_type_to_resource (portal_type : String) : String :=
  py_replace_space (py_lower portal_type)

/-- Python `dict(zip(keys, values)).get(key)`: with duplicate keys the
last binding wins. -/
def dict_get (pairs : List (String × String)) (key : String) : Option String :=
  pairs.foldl (fun acc kv => if kv.1 = key then some kv.2 else acc) none

/-- Shallow embedding of `get_resource_mapping()` as the zipped pair
list; `portal_types` is the host's `portal_types.listContentTypes()`. -/
def get_resource_mapping (portal_types : List String) : List (String × String) :=
  portal_types.map (fun t => (portal_type_to_resource t, t))

/-- Shallow embedding of `resource_to_portal_type(resource)`: `None`
maps to `None`; otherwise look the lowercased resource up in the
resource mapping. -/
def resource_to_portal_type (portal_types : List String) (resource : Option String) :
    Option String :=
  match resource with
  | none => none
  | some r => dict_get (get_resource_mapping portal_types) (py_lower r)

end Resources

-- ---------------------------------------------------------------------------
-- C1 / C9: delete_items (api.py 229-262), deactivate_object (1513-1528)
-- ---------------------------------------------------------------------------

namespace Delete

/-- A content object as seen by the delete operation: its UID, its id
and whether it is the portal root (`is_root` proxies
`senaite.api.is_portal`). -/
structure DObj where
  uid : String
  oid : String
  is_root : Bool
  deriving DecidableEq, Repr

/-- Host CMS state threaded through the delete operation: the content
tree and the log of workflow transitions performed by the host's
workflow engine (`do_transition_for`). -/
structure DState where
  in_tree : List DObj
  transitions : List (String × String)
  deriving DecidableEq, Repr

/-- Environment for `delete_items`: the targets the request resolved to
(the result of `find_objects(uid=uid)`), the permission the host checks
for the "deactivate" transition (its Unauthorized), and the host IInfo
adapter (`IInfo(obj)()`). -/
structure DelEnv where
  objects : List DObj
  allowed_deactivate : DObj → Bool
  info : DObj → String

/-- Shallow embedding of `deactivate_object(brain_or_object)`: refuses
the portal root with 401, otherwise performs the host "deactivate"
workflow transition, translating the host Unauthorized into a 401.  A
workflow transition changes workflow state only — the object stays in
the content tree. -/
def deactivate_object (env : DelEnv) (o : DObj) (s : DState) :
    Except APIErr Unit × DState :=
  if o.is_root then
    (Except.error ⟨401, "Deactivating the Portal is not allowed"⟩, s)
  else if env.allowed_deactivate o then
    (Except.ok (), { s with transitions := s.transitions ++ [(o.uid, "deactivate")] })
  else
    (Except.error ⟨401, "Not allowed to deactivate object"⟩, s)

/-- The `for obj in objects` loop of `delete_items`: deactivate each
object and collect one `IInfo(obj)()` record per object. -/
def delete_loop (env : DelEnv) :
    List DObj → DState → Except APIErr (List String) × DState
  | [], s => (Except.ok [], s)
  | o :: rest, s =>
    match deactivate_object env o s with
    | (Except.error e, s2) => (Except.error e, s2)
    | (Except.ok _, s2) =>
      match delete_loop env rest s2 with
      | (Except.error e, s3) => (Except.error e, s3)
      | (Except.ok infos, s3) => (Except.ok (env.info o :: infos), s3)

/-- Shallow embedding of `delete_items`: rejects the whole batch with
400 when any resolved target is the portal root (the Python 2 `filter`
returns a list, truthy iff non-empty), otherwise deactivates every
target collecting one info record each, and fails 404 when the result
list is empty. -/
def delete_items (env : DelEnv) (s : DState) :
    Except APIErr (List String) × DState :=
  if env.objects.any (fun o => o.is_root) then
    (Except.error ⟨400, "Can not delete the portal object"⟩, s)
  else
    match delete_loop env env.objects s with
    | (Except.error e, s2) => (Except.error e, s2)
    | (Except.ok results, s2) =>
      if results.isEmpty then
        (Except.error ⟨404, "No Objects could be found"⟩, s2)
      else (Except.ok results, s2)

/-- A concrete non-portal content object. -/
def objA : DObj := { uid := "uid-a", oid := "a", is_root := false }

/-- The portal root object. -/
def rootObj : DObj := { uid := "uid-root", oid := "plone", is_root := true }

/-- Environment whose request resolves to the single object `objA`. -/
def envDel1 : DelEnv :=
  { objects := [objA]
    allowed_deactivate := fun _ => true
    info := fun o => "info:" ++ o.oid }

/-- Environment whose request resolves to `objA` and the portal root. -/
def envDel2 : DelEnv :=
  { objects := [objA, rootObj]
    allowed_deactivate := fun _ => true
    info := fun o => "info:" ++ o.oid }

/-- Initial state: `objA` lives in the tree, no transitions yet. -/
def s0 : DState := { in_tree := [objA], transitions := [] }

end Delete

-- ---------------------------------------------------------------------------
-- C3: update_object_with_data (api.py 1425-1491), SKIP_UPDATE_FIELDS (68)
-- ---------------------------------------------------------------------------

namespace Update

/-- Outcome of one host `dm.set(k, v, **record)` call: the host may
raise Unauthorized or ValueError, or return a success flag. -/
inductive SetOutcome where
  | unauthorized
  | valueError (m : String)
  | done (success : Bool)
  deriving DecidableEq, Repr

/-- Host components used by `update_object_with_data`: the optional
IUpdate adapter, the IDataManager (`None` when missing) with its `set`,
and the AT validator (`some` = serialized non-empty invalidity dict). -/
structure UpdEnv where
  has_update_adapter : Bool
  adapter_update : Rec → Except APIErr Unit
  has_datamanager : Bool
  dm_set : String → String → SetOutcome
  validate : Rec → Option String

/-- `SKIP_UPDATE_FIELDS = ["id", ]` (api.py line 68). -/
def SKIP_UPDATE_FIELDS : List String := ["id"]

/-- `purged_records`: a deep copy of the record with every
`SKIP_UPDATE_FIELDS` key popped. -/
def purge (record : Rec) : Rec :=
  record.filter (fun kv => !(SKIP_UPDATE_FIELDS.contains kv.1))

/-- The `for k, v in purged_records.items()` loop.  First component:
the result (`fail 401` on Unauthorized, `fail 400` on ValueError, a
falsy success flag is merely skipped).  Second component: the keys
passed to `dm.set`, in call order. -/
def upd_loop (env : UpdEnv) : List (String × String) → Except APIErr Unit × List String
  | [] => (Except.ok (), [])
  | (k, v) :: rest =>
    match env.dm_set k v with
    | SetOutcome.unauthorized =>
      (Except.error ⟨401, "Not allowed to set the field " ++ k⟩, [k])
    | SetOutcome.valueError m => (Except.error ⟨400, m⟩, [k])
    | SetOutcome.done _ =>
      let r := upd_loop env rest
      (r.1, k :: r.2)

/-- Shallow embedding of `update_object_with_data(content, record)`.
With an IUpdate adapter the update is delegated; otherwise a missing
data manager fails 400, the purged record is written field by field
through `dm.set`, and a non-empty validation result fails 400.  The
trailing workflow transition and reindex delegate to the host and touch
no data-manager field.  Second component: the keys written through the
data manager. -/
def update_object_with_data (env : UpdEnv) (record : Rec) :
    Except APIErr Unit × List String :=
  if env.has_update_adapter then (env.adapter_update record, [])
  else if env.has_datamanager = false then
    (Except.error ⟨400, "Update for this object is not allowed"⟩, [])
  else
    match upd_loop env (purge record) with
    | (Except.error e, log) => (Except.error e, log)
    | (Except.ok _, log) =>
      match env.validate record with
      | some invalid => (Except.error ⟨400, invalid⟩, log)
      | none => (Except.ok (), log)

/-- Concrete data manager: `secret` raises Unauthorized, `bad` raises
ValueError, everything else succeeds. -/
def envUpd : UpdEnv :=
  { has_update_adapter := false
    adapter_update := fun _ => Except.ok ()
    has_datamanager := true
    dm_set := fun k _ =>
      if k = "secret" then SetOutcome.unauthorized
      else if k = "bad" then SetOutcome.valueError "invalid value"
      else SetOutcome.done true
    validate := fun _ => none }

end Update

-- ---------------------------------------------------------------------------
-- C2: create_items (api.py 117-164), find_target_container (1338-1359)
-- ---------------------------------------------------------------------------

namespace Create

/-- A folderish content object (abstract token; content objects are
truthy in Python). -/
abbrev CObj := String

/-- Host functions used by `create_items`: the uid/path resolvers, the
creation permission check (`is_creation_allowed`, which composes host
checks and the optional ICreate adapter), the object factory
(`create_object`, which may raise), and `make_items_for`. -/
structure CrEnv where
  get_object_by_uid : String → Option CObj
  get_object_by_path : String → Except APIErr (Option CObj)
  is_creation_allowed : String → CObj → Bool
  create_object : CObj → String → Rec → Except APIErr CObj
  make_items_for : List CObj → List String

/-- Shallow embedding of `find_target_container(record)`: pops
`parent_uid` and `parent_path`, resolves a truthy `parent_uid` by UID,
else a truthy `parent_path` by path, and fails 404 when no target was
found.  Returns the target together with the popped record. -/
def find_target_container (env : CrEnv) (record : Rec) :
    Except APIErr (CObj × Rec) := do
  let parent_uid := rec_get record "parent_uid"
  let r1 := rec_remove record "parent_uid"
  let parent_path := rec_get r1 "parent_path"
  let r2 := rec_remove r1 "parent_path"
  let target : Option CObj ←
    if otruthy parent_uid then pure (env.get_object_by_uid (parent_uid.getD ""))
    else if otruthy parent_path then env.get_object_by_path (parent_path.getD "")
    else pure none
  match target with
  | none => Except.error ⟨404, "No target container found"⟩
  | some t => pure (t, r2)

/-- The `for record in records` loop of `create_items`.  The Python
variables `container` and `portal_type` persist across iterations:
`portal_type` is popped from the record only while it `is None`, the
container is resolved through `find_target_container` only while it is
`None`.  A falsy container/portal_type pair fails 400, a disallowed
creation fails 401, each created object is appended to the results. -/
def create_loop (env : CrEnv) :
    List Rec → Option CObj → Option String → List CObj → Except APIErr (List CObj)
  | [], _, _, acc => Except.ok acc
  | record :: rest, container, portal_type, acc => do
    let pr :=
      if portal_type.isNone then
        (rec_get record "portal_type", rec_remove record "portal_type")
      else (portal_type, record)
    let cr ←
      match container with
      | none => do
          let tr ← find_target_container env pr.2
          pure ((some tr.1 : Option CObj), tr.2)
      | some c => pure ((some c : Option CObj), pr.2)
    match cr.1, pr.1 with
    | some c, some p =>
      if p = "" then
        Except.error ⟨400, "Please provide a container path/uid and portal_type"⟩
      else if env.is_creation_allowed p c = false then
        Except.error ⟨401, "Creation of this portal_type in the container is not allowed"⟩
      else do
        let obj ← env.create_object c p cr.2
        create_loop env rest (some c) (some p) (acc ++ [obj])
    | _, _ =>
      Except.error ⟨400, "Please provide a container path/uid and portal_type"⟩

/-- Shallow embedding of `create_items(portal_type, uid, ...)`:
`container = uid and get_object_by_uid(uid) or None`, then the record
loop, then fail 400 when no objects were created, else the item
records. -/
def create_items (env : CrEnv) (portal_type : Option String) (uid : Option String)
    (records : List Rec) : Except APIErr (List String) := do
  let container : Option CObj :=
    match uid with
    | none => none
    | some u => if u = "" then none else env.get_object_by_uid u
  let results ← create_loop env records container portal_type []
  if results.isEmpty then Except.error ⟨400, "No Objects could be created"⟩
  else Except.ok (env.make_items_for results)

/-- Concrete host for the C2 witnesses: one folder, reachable by uid
`uid-f`, in which only `Document` objects may be created. -/
def envCr1 : CrEnv :=
  { get_object_by_uid := fun u => if u = "uid-f" then some "folder" else none
    get_object_by_path := fun p =>
      if p = "/plone/folder" then Except.ok (some "folder") else Except.ok none
    is_creation_allowed := fun pt c => pt == "Document" && c == "folder"
    create_object := fun _ pt _ => Except.ok ("new:" ++ pt)
    make_items_for := fun objs => objs.map (fun o => "item:" ++ o) }

end Create

-- ---------------------------------------------------------------------------
-- C4: get_batch / make_batch (api.py 1610-1633), make_items_for (265-287)
-- ---------------------------------------------------------------------------

namespace Batching

/-- Catalog brains / content objects are abstract tokens. -/
abbrev Item := String

/-- First binding of a key in a JSON dictionary. -/
def jval_get : List (String × JVal) → String → Option JVal
  | [], _ => none
  | (k, v) :: rest, key => if k = key then some v else jval_get rest key

/-- Python `d.update(e)`: values of existing keys are overridden in
place, new keys are appended in order. -/
def dict_update (d e : List (String × JVal)) : List (String × JVal) :=
  d.map (fun kv => (kv.1, (jval_get e kv.1).getD kv.2))
    ++ e.filter (fun kv => (jval_get d kv.1).isNone)

/-- Host pieces used by `make_items_for` and `get_batch`: the request's
`?children=yes` flag, folderishness, the IInfo-adapter-driven
`get_info` and `get_children_info`, and the batch adapter's prev/next
URLs (request-derived). -/
structure BatchEnv where
  include_children : Bool
  is_folderish : Item → Bool
  get_info : Item → List (String × JVal)
  get_children_info : Item → List (String × JVal)
  next_url : JVal
  prev_url : JVal

/-- Shallow embedding of `make_items_for(brains_or_objects, ...)`: map
`extract_data` over the list, where `extract_data` takes the object's
info and merges in the children info for folderish objects when the
request asked for children. -/
def make_items_for (env : BatchEnv) (xs : List Item) : List JVal :=
  xs.map (fun x =>
    if env.include_children && env.is_folderish x then
      JVal.dict (dict_update (env.get_info x) (env.get_children_info x))
    else JVal.dict (env.get_info x))

/-- Modelled from the spec: the IBatch adapter (senaite.jsonapi's
batch module, not under src/) wrapping the host's
`Products.CMFPlone.PloneBatch.Batch(sequence, size, start)`.  Per the
spec the repository's only algorithm here is "pagination slicing": the
current page is the `size`-long slice of the sequence beginning at
`start`, and the sequence length is the length of the whole input. -/
structure BatchM where
  sequence : List Item
  size : Nat
  start : Nat

/-- Modelled from the spec: the batch page size. -/
def BatchM.get_pagesize (b : BatchM) : Nat := b.size

/-- Modelled from the spec: the length of the whole wrapped sequence. -/
def BatchM.get_sequence_length (b : BatchM) : Nat := b.sequence.length

/-- Modelled from the spec: the current page slice of the sequence. -/
def BatchM.get_batch (b : BatchM) : List Item :=
  (b.sequence.drop b.start).take b.size

/-- Modelled from the spec: the 1-based page number. -/
def BatchM.get_pagenumber (b : BatchM) : Nat := b.start / max b.size 1 + 1

/-- Modelled from the spec: the number of pages (ceiling division). -/
def BatchM.get_numpages (b : BatchM) : Nat :=
  (b.sequence.length + max b.size 1 - 1) / max b.size 1

/-- Shallow embedding of `make_batch(sequence, size, start)`. -/
def make_batch (sequence : List Item) (size start : Nat) : BatchM :=
  { sequence := sequence, size := size, start := start }

/-- Shallow embedding of `get_batch(sequence, size, start, ...)`: the
batched result record with its seven keys. -/
def get_batch (env : BatchEnv) (sequence : List Item) (size start : Nat) :
    List (String × JVal) :=
  let batch := make_batch sequence size start
  [("pagesize", JVal.num batch.get_pagesize),
   ("next", env.next_url),
   ("previous", env.prev_url),
   ("page", JVal.num batch.get_pagenumber),
   ("pages", JVal.num batch.get_numpages),
   ("count", JVal.num batch.get_sequence_length),
   ("items", JVal.arr (make_items_for env batch.get_batch))]

end Batching

-- ---------------------------------------------------------------------------
-- C5: get_search_results (api.py 588-616)
-- ---------------------------------------------------------------------------

namespace Search

/-- Modelled from the spec: `underscore.to_list` (underscore.py, not
under src/): `None` becomes the empty list, a single value a singleton
list. -/
def to_list : Option String → List String
  | none => []
  | some x => [x]

/-- Modelled from the spec: `underscore.to_string` (underscore.py, not
under src/): a string is itself, `None` prints as "None". -/
def to_string : Option String → String
  | none => "None"
  | some s => s

/-- Host pieces for `get_search_results`: the UID resolver, the portal
object, the request's `portal_type` parameter values
(`u.to_list(req.get("portal_type"))`), and the catalog query
(`search(portal_type=..., uid=None, **kw)`). -/
structure SearchEnv where
  get_object_by_uid : String → Option String
  portal : String
  request_portal_types : List String
  catalog_search : Option String → List String

/-- The outcome of `get_search_results` together with whether a catalog
query was executed. -/
structure SearchOut where
  results : List String
  catalog_queried : Bool
  deriving DecidableEq, Repr

/-- Shallow embedding of `get_search_results(portal_type, uid, **kw)`:
a non-`None` uid returns the resolved object as a list immediately
(no catalog query); otherwise the catalog is queried, and the portal is
appended when "Plone Site" was requested via the argument or any
request parameter value. -/
def get_search_results (env : SearchEnv) (portal_type : Option String)
    (uid : Option String) : SearchOut :=
  match uid with
  | some u =>
    { results := to_list (env.get_object_by_uid u), catalog_queried := false }
  | none =>
    let include_portal :=
      (to_string portal_type == "Plone Site")
        || env.request_portal_types.contains "Plone Site"
    let results := env.catalog_search portal_type
    if include_portal then
      { results := results ++ to_list (some env.portal), catalog_queried := true }
    else
      { results := results, catalog_queried := true }

/-- Concrete host for the C5 witness. -/
def envSearch : SearchEnv :=
  { get_object_by_uid := fun u => if u = "uid-1" then some "objU" else none
    portal := "portal"
    request_portal_types := ["Document"]
    catalog_search := fun _ => ["r1", "r2"] }

/-- Same host, with "Plone Site" among the request's portal_types. -/
def envSearch2 : SearchEnv :=
  { envSearch with request_portal_types := ["Document", "Plone Site"] }

end Search

-- ---------------------------------------------------------------------------
-- C8: to_json_value (api.py 827-864), is_json_serializable (812-824),
--     is_date (867-879), to_iso_date (893-911)
-- ---------------------------------------------------------------------------

namespace Jsonify

/-- A date value as recognised by `is_date`: `datetime.datetime`,
`datetime.date` or Zope `DateTime`, each carrying the ISO string the
host renders for it (`isoformat()` resp. `ISO8601()`). -/
inductive PyDate where
  | pydatetime (iso : String)
  | pydate (iso : String)
  | zopeDT (iso8601 : String)
  deriving DecidableEq, Repr

/-- The ISO rendering of a date value. -/
def PyDate.iso : PyDate → String
  | pydatetime s => s
  | pydate s => s
  | zopeDT s => s

/-- A Python field value as dispatched by `to_json_value`: an
acquisition-wrapped object, a callable (carrying its call result), a
date, a `json.dumps`-serializable value, or a value `json.dumps`
rejects with TypeError. -/
inductive PyVal where
  | wrapped (w : String)
  | callable (r : PyVal)
  | date (d : PyDate)
  | jsonable (j : JVal)
  | unjsonable (tag : String)

/-- `is_date(thing)`: isinstance check against the known date types. -/
def is_date : PyVal → Bool
  | PyVal.date _ => true
  | _ => false

/-- `is_json_serializable(thing)`: whether `json.dumps` succeeds. -/
def is_json_serializable : PyVal → Bool
  | PyVal.jsonable _ => true
  | _ => false

/-- Shallow embedding of `to_iso_date(date, default=None)`: the default
for non-dates, `ISO8601()` for a Zope DateTime, `isoformat()` for the
Python date types. -/
def to_iso_date (date : PyVal) (default : Option String) : Option String :=
  if is_date date = false then default
  else match date with
    | PyVal.date d => some d.iso
    | _ => default

/-- The JSON reading of a serializable value. -/
def as_json : PyVal → JVal
  | PyVal.jsonable j => j
  | _ => JVal.null

/-- Host pieces for `to_json_value`: `IDataManager(obj).json_data` and
`get_url_info`. -/
structure JsonEnv where
  json_data : String → PyVal
  get_url_info : String → JVal

/-- Shallow embedding of `to_json_value(obj, fieldname, value, default)`:
`_marker` (here `none`) pulls the value from the data manager; an
acquisition wrapper returns its URL info; a callable is called; a date
becomes its ISO representation; a value `json.dumps` cannot serialize
becomes the default; anything else is returned unchanged. -/
def to_json_value (env : JsonEnv) (fieldname : String) (value : Option PyVal)
    (default : JVal) : JVal :=
  let v0 := match value with
    | none => env.json_data fieldname
    | some v => v
  match v0 with
  | PyVal.wrapped w => env.get_url_info w
  | v1 =>
    let v2 := match v1 with
      | PyVal.callable r => r
      | v => v
    if is_date v2 then
      match to_iso_date v2 none with
      | some s => JVal.str s
      | none => JVal.null
    else if is_json_serializable v2 = false then default
    else as_json v2

/-- Concrete data manager for the C8 witness: `created` holds a Zope
DateTime, `blob` holds a non-serializable file value. -/
def envJson : JsonEnv :=
  { json_data := fun f =>
      if f = "created" then PyVal.date (PyDate.zopeDT "2020-01-02T03:04:05+00:00")
      else if f = "blob" then PyVal.unjsonable "file"
      else PyVal.jsonable (JVal.str "x")
    get_url_info := fun w => JVal.dict [("uid", JVal.str w)] }

end Jsonify

-- ---------------------------------------------------------------------------
-- C10: create_object (api.py 1362-1411)
-- ---------------------------------------------------------------------------

namespace CreateObject

/-- A content object inside a container: the host-generated id and its
portal type. -/
structure Obj where
  oid : String
  portal_type : String
  deriving DecidableEq, Repr

/-- Host functions for `create_object`: the ICreate adapter (delegation
flag and factory), the AnalysisRequest helper, whether `api.create`
raises the host Unauthorized, the id senaite generates for the new
object, and the outcome of `update_object_with_data` on the fresh
object. -/
structure C10Env where
  is_creation_delegated : Bool
  adapter_create : Rec → Except APIErr Obj
  create_ar : Rec → Obj
  create_raises_unauthorized : Bool
  new_id : String
  update_result : Obj → Rec → Except APIErr Unit

/-- `container._delObject(id)`: remove the entry with the given id,
bypassing permission checks. -/
def del_object (container : List Obj) (oid : String) : List Obj :=
  container.filter (fun o => o.oid ≠ oid)

/-- Shallow embedding of `create_object(container, portal_type, **data)`:
the passed-in id is always popped; a delegated ICreate adapter handles
creation; "AnalysisRequest" goes through the helper and returns
immediately without the update step; otherwise `api.create` makes a
minimum viable object (host Unauthorized fails 401), the record data is
applied through `update_object_with_data`, and on an APIError there the
fresh object is deleted from the container and the error re-raised.
Returns the result together with the final container contents. -/
def create_object (env : C10Env) (container : List Obj) (portal_type : String)
    (data : Rec) : Except APIErr Obj × List Obj :=
  let data2 := rec_remove data "id"
  if env.is_creation_delegated then (env.adapter_create data2, container)
  else if portal_type = "AnalysisRequest" then
    let obj := env.create_ar data2
    (Except.ok obj, container ++ [obj])
  else if env.create_raises_unauthorized then
    (Except.error ⟨401, "You are not allowed to create this content"⟩, container)
  else
    let obj : Obj := { oid := env.new_id, portal_type := portal_type }
    let container2 := container ++ [obj]
    match env.update_result obj data2 with
    | Except.error e => (Except.error e, del_object container2 obj.oid)
    | Except.ok _ => (Except.ok obj, container2)

/-- Concrete host for the C10 witness: the update of the fresh object
always fails with a 400 APIError. -/
def envC10 : C10Env :=
  { is_creation_delegated := false
    adapter_create := fun _ => Except.ok { oid := "adapter", portal_type := "X" }
    create_ar := fun _ => { oid := "ar-1", portal_type := "AnalysisRequest" }
    create_raises_unauthorized := false
    new_id := "doc-1"
    update_result := fun _ _ => Except.error ⟨400, "bad field"⟩ }

end CreateObject

end SenaiteJsonapi

namespace SenaiteJsonapi

-- ---------------------------------------------------------------------------
-- Theorems
-- ---------------------------------------------------------------------------

namespace Resolve

/-- C6: `get_object_by_record` returns `None` for an empty record;
otherwise it resolves by the truthy `uid` key, else the truthy `path`
key, else the join of truthy `parent_path` and `id` with "/", and
returns `None` when none of these combinations is present — in exactly
that priority order. -/
theorem C6_get_object_by_record_priority (env : RecordEnv) (record : Rec) :
    (record = [] → get_object_by_record env record = Except.ok none)
    ∧ (∀ u, rec_get record "uid" = some u → u ≠ "" →
        get_object_by_record env record = Except.ok (env.get_object_by_uid u))
    ∧ (∀ p, otruthy (rec_get record "uid") = false →
        rec_get record "path" = some p → p ≠ "" →
        get_object_by_record env record = env.get_object_by_path p)
    ∧ (∀ pp i, otruthy (rec_get record "uid") = false →
        otruthy (rec_get record "path") = false →
        rec_get record "parent_path" = some pp → pp ≠ "" →
        rec_get record "id" = some i → i ≠ "" →
        get_object_by_record env record = env.get_object_by_path (pp ++ "/" ++ i))
    ∧ (record ≠ [] → otruthy (rec_get record "uid") = false →
        otruthy (rec_get record "path") = false →
        (otruthy (rec_get record "parent_path") && otruthy (rec_get record "id")) = false →
        get_object_by_record env record = Except.ok none) := by
  refine ⟨?_, ?_, ?_, ?_, ?_⟩
  · intro h
    subst h
    rfl
  · intro u hu hne
    have hrec : record.isEmpty = false := by
      cases record with
      | nil => simp [rec_get] at hu
      | cons a l => rfl
    simp [get_object_by_record, hrec, hu, otruthy, hne]
  · intro p hu hp hne
    have hrec : record.isEmpty = false := by
      cases record with
      | nil => simp [rec_get] at hp
      | cons a l => rfl
    simp only [otruthy, ne_eq, decide_not] at hu
    simp [get_object_by_record, hrec, hu, hp, otruthy, hne]
  · intro pp i hu hp hpp hppne hid hidne
    have hrec : record.isEmpty = false := by
      cases record with
      | nil => simp [rec_get] at hpp
      | cons a l => rfl
    simp only [otruthy, ne_eq, decide_not] at hu hp
    simp [get_object_by_record, hrec, hu, hp, hpp, hid, otruthy, hppne, hidne]
  · intro hrec hu hp hrest
    have hrec2 : record.isEmpty = false := by
      cases record with
      | nil => exact absurd rfl hrec
      | cons a l => rfl
    simp [get_object_by_record, hrec2, hu, hp, hrest]

/-- Witness for C6: the priority order evaluated on concrete records. -/
theorem C6_get_object_by_record_priority_witness :
    get_object_by_record envC6 [] = Except.ok none
    ∧ get_object_by_record envC6 [("uid", "uid-1"), ("path", "/plone/a")]
        = Except.ok (some "objU")
    ∧ get_object_by_record envC6 [("uid", ""), ("path", "/plone/a")]
        = Except.ok (some "obj-at:/plone/a")
    ∧ get_object_by_record envC6 [("parent_path", "/plone/f"), ("id", "x")]
        = Except.ok (some "obj-at:/plone/f/x")
    ∧ get_object_by_record envC6 [("title", "T")] = Except.ok none := by
  refine ⟨?_, ?_, ?_, ?_, ?_⟩
  · exact (C6_get_object_by_record_priority envC6 []).1 rfl
  · exact ((C6_get_object_by_record_priority envC6
      [("uid", "uid-1"), ("path", "/plone/a")]).2.1 "uid-1" (by rfl) (by decide))
  · exact ((C6_get_object_by_record_priority envC6
      [("uid", ""), ("path", "/plone/a")]).2.2.1 "/plone/a" (by rfl) (by rfl) (by decide))
  · exact ((C6_get_object_by_record_priority envC6
      [("parent_path", "/plone/f"), ("id", "x")]).2.2.2.1 "/plone/f" "x"
      (by rfl) (by rfl) (by rfl) (by decide) (by rfl) (by decide))
  · exact ((C6_get_object_by_record_priority envC6 [("title", "T")]).2.2.2.2
      (by decide) (by rfl) (by rfl) (by rfl))

end Resolve

namespace Resources

theorem char_toNat_ofNat_of_valid {n : Nat} (h : n.isValidChar) :
    (Char.ofNat n).toNat = n := by
  simp [Char.ofNat, h]
  rfl

theorem toLower_toLower (c : Char) : c.toLower.toLower = c.toLower := by
  unfold Char.toLower
  by_cases h : 65 ≤ c.toNat ∧ c.toNat ≤ 90
  · have hv : (c.toNat + 32).isValidChar := by
      left
      omega
    rw [if_pos h]
    simp only [char_toNat_ofNat_of_valid hv, ge_iff_le]
    rw [if_neg (by omega)]
  · rw [if_neg h, if_neg h]

theorem lower_filter_lower (l : List Char) :
    (l.map Char.toLower |>.filter (fun c => c ≠ ' ')).map Char.toLower
      = (l.map Char.toLower).filter (fun c => c ≠ ' ') := by
  induction l with
  | nil => rfl
  | cons c l ih =>
    simp only [ne_eq, decide_not] at ih
    simp only [List.map_cons, List.filter_cons, ne_eq, decide_not]
    by_cases h : c.toLower = ' '
    · simp [h, ih]
    · simp [h, ih, toLower_toLower]

/-- A resource name is already lowercase: lowering it again changes nothing. -/
theorem py_lower_resource_fixed (s : String) :
    py_lower (portal_type_to_resource s) = portal_type_to_resource s := by
  unfold portal_type_to_resource py_lower py_replace_space
  exact congrArg String.mk (lower_filter_lower s.toList)

/-- `dict_get` over a snoc: the last binding of a key wins. -/
theorem dict_get_append_single (ps : List (String × String)) (kv : String × String)
    (key : String) :
    dict_get (ps ++ [kv]) key = if kv.1 = key then some kv.2 else dict_get ps key := by
  unfold dict_get
  rw [List.foldl_append]
  by_cases h : kv.1 = key
  · simp [h]
  · simp [h]

/-- Looking up `portal_type_to_resource t` in the resource mapping finds
`t` back, provided `t` is in the type list and no other listed type
collapses to the same resource. -/
theorem dict_get_mapping_inj (portal_types : List String) (t : String)
    (hmem : t ∈ portal_types)
    (hinj : ∀ t2 ∈ portal_types, portal_type_to_resource t2 = portal_type_to_resource t →
      t2 = t) :
    dict_get (get_resource_mapping portal_types) (portal_type_to_resource t) = some t := by
  induction portal_types using List.reverseRecOn with
  | nil => cases hmem
  | append_singleton ts a ih =>
    unfold get_resource_mapping
    rw [List.map_append, List.map_singleton, dict_get_append_single]
    by_cases h : portal_type_to_resource a = portal_type_to_resource t
    · have ha : a = t := hinj a (by simp) h
      simp [h, ha]
    · have hmem2 : t ∈ ts := by
        rcases List.mem_append.mp hmem with h1 | h1
        · exact h1
        · exact absurd (by simp at h1; rw [h1]) h
      simp only [h, if_false]
      exact ih hmem2 (fun t2 ht2 => hinj t2 (List.mem_append.mpr (Or.inl ht2)))

/-- C7: `portal_type_to_resource` lowercases and strips spaces;
`resource_to_portal_type` maps `None` to `None`, is case-insensitive in
its argument, and inverts `portal_type_to_resource` on every listed
portal type at which the conversion is injective. -/
theorem C7_resource_conversion (portal_types : List String) (t : String) :
    (portal_type_to_resource t = py_replace_space (py_lower t))
    ∧ (resource_to_portal_type portal_types none = none)
    ∧ (∀ r1 r2, py_lower r1 = py_lower r2 →
        resource_to_portal_type portal_types (some r1)
          = resource_to_portal_type portal_types (some r2))
    ∧ (t ∈ portal_types →
        (∀ t2 ∈ portal_types,
          portal_type_to_resource t2 = portal_type_to_resource t → t2 = t) →
        resource_to_portal_type portal_types (some (portal_type_to_resource t)) = some t) := by
  refine ⟨rfl, rfl, ?_, ?_⟩
  · intro r1 r2 h
    show dict_get (get_resource_mapping portal_types) (py_lower r1)
      = dict_get (get_resource_mapping portal_types) (py_lower r2)
    rw [h]
  · intro hmem hinj
    show dict_get (get_resource_mapping portal_types)
      (py_lower (portal_type_to_resource t)) = some t
    rw [py_lower_resource_fixed t]
    exact dict_get_mapping_inj portal_types t hmem hinj

/-- Witness for C7: the round trip and case-insensitivity on a concrete
portal type list. -/
theorem C7_resource_conversion_witness :
    resource_to_portal_type ["Plone Site", "Document"] (some "plonesite")
        = some "Plone Site"
    ∧ resource_to_portal_type ["Plone Site", "Document"] none = none
    ∧ resource_to_portal_type ["Plone Site", "Document"] (some "PloneSite")
        = resource_to_portal_type ["Plone Site", "Document"] (some "plonesite") := by
  refine ⟨?_, ?_, ?_⟩
  · have h := (C7_resource_conversion ["Plone Site", "Document"] "Plone Site").2.2.2
      (by decide) (by decide)
    have he : portal_type_to_resource "Plone Site" = "plonesite" := by decide
    rw [he] at h
    exact h
  · exact (C7_resource_conversion ["Plone Site", "Document"] "x").2.1
  · exact (C7_resource_conversion ["Plone Site", "Document"] "x").2.2.1
      "PloneSite" "plonesite" (by decide)

end Resources

namespace Delete

/-- The delete loop on valid, deactivation-allowed targets: it succeeds
with one info record per object, appends one "deactivate" transition
per object, and leaves the content tree untouched. -/
theorem delete_loop_ok (env : DelEnv) (objs : List DObj) (s : DState)
    (hroot : ∀ o ∈ objs, o.is_root = false)
    (hallow : ∀ o ∈ objs, env.allowed_deactivate o = true) :
    delete_loop env objs s
      = (Except.ok (objs.map env.info),
         { s with transitions :=
             s.transitions ++ objs.map (fun o => (o.uid, "deactivate")) }) := by
  induction objs generalizing s with
  | nil => simp [delete_loop]
  | cons o rest ih =>
    have ho : o.is_root = false := hroot o (by simp)
    have ha : env.allowed_deactivate o = true := hallow o (by simp)
    have ih2 := ih { s with transitions := s.transitions ++ [(o.uid, "deactivate")] }
      (fun o2 h2 => hroot o2 (by simp [h2]))
      (fun o2 h2 => hallow o2 (by simp [h2]))
    simp [delete_loop, deactivate_object, ho, ha, ih2]

/-- C1 counterexample: on a request resolving to the single valid,
non-portal object `objA`, `delete_items` succeeds with one info record,
yet `objA` is still in the content tree afterwards — the operation
performs a "deactivate" workflow transition and removes nothing. -/
theorem C1_delete_items_keeps_object_in_tree :
    delete_items envDel1 s0
      = (Except.ok ["info:a"],
         { in_tree := [objA], transitions := [("uid-a", "deactivate")] }) := by
  rfl

/-- C1 (amended): for every request resolving to a non-empty set of
valid (non-portal) targets whose "deactivate" transition is allowed,
`delete_items` deactivates each target (one workflow transition per
object), returns one info record per object, and leaves every object
in the content tree. -/
theorem C1_delete_items_deactivates_each_target (env : DelEnv) (s : DState)
    (hne : env.objects ≠ [])
    (hroot : ∀ o ∈ env.objects, o.is_root = false)
    (hallow : ∀ o ∈ env.objects, env.allowed_deactivate o = true) :
    delete_items env s
      = (Except.ok (env.objects.map env.info),
         { s with transitions :=
             s.transitions ++ env.objects.map (fun o => (o.uid, "deactivate")) }) := by
  have hany : env.objects.any (fun o => o.is_root) = false := by
    rw [List.any_eq_false]
    intro o ho
    simp [hroot o ho]
  have hloop := delete_loop_ok env env.objects s hroot hallow
  have hmap : (env.objects.map env.info).isEmpty = false := by
    cases h : env.objects with
    | nil => exact absurd h hne
    | cons a l => simp [h]
  simp [delete_items, hany, hloop, hmap]

/-- Witness for the amended C1 on the concrete one-object request. -/
theorem C1_delete_items_deactivates_each_target_witness :
    delete_items envDel1 s0
      = (Except.ok ["info:a"],
         { in_tree := [objA], transitions := [("uid-a", "deactivate")] })
    ∧ objA ∈ (delete_items envDel1 s0).2.in_tree := by
  have h := C1_delete_items_deactivates_each_target envDel1 s0
    (by decide) (by decide) (by decide)
  exact ⟨h, by rw [h]; decide⟩

/-- C9: whenever the portal root is among the resolved targets,
`delete_items` fails with status 400 and the host state is unchanged:
no target has undergone any workflow transition. -/
theorem C9_delete_items_rejects_portal_batch (env : DelEnv) (s : DState)
    (hroot : ∃ o ∈ env.objects, o.is_root = true) :
    delete_items env s
      = (Except.error ⟨400, "Can not delete the portal object"⟩, s) := by
  have hany : env.objects.any (fun o => o.is_root) = true := by
    rcases hroot with ⟨o, ho, hr⟩
    exact List.any_eq_true.mpr ⟨o, ho, hr⟩
  simp [delete_items, hany]

/-- Witness for C9: a batch containing the portal root is rejected with
400 and the state (here with an empty transition log) is untouched. -/
theorem C9_delete_items_rejects_portal_batch_witness :
    delete_items envDel2 s0
      = (Except.error ⟨400, "Can not delete the portal object"⟩, s0)
    ∧ s0.transitions = [] :=
  ⟨C9_delete_items_rejects_portal_batch envDel2 s0 ⟨rootObj, by decide, rfl⟩, rfl⟩

end Delete

namespace Update

/-- Keys passed to `dm.set` are keys of the iterated record. -/
theorem upd_loop_log_subset (env : UpdEnv) (l : List (String × String)) :
    ∀ k ∈ (upd_loop env l).2, k ∈ l.map Prod.fst := by
  induction l with
  | nil => simp [upd_loop]
  | cons kv rest ih =>
    intro k hk
    rcases kv with ⟨k0, v0⟩
    rcases h : env.dm_set k0 v0 with _ | m | b
    all_goals
      simp only [upd_loop, h] at hk
    · simp at hk
      simp [hk]
    · simp at hk
      simp [hk]
    · simp at hk
      rcases hk with hk | hk
      · simp [hk]
      · simp [ih k hk]

/-- The purged record has no `id` key. -/
theorem id_not_in_purge_keys (record : Rec) :
    "id" ∉ (purge record).map Prod.fst := by
  intro h
  rcases List.mem_map.mp h with ⟨kv, hkv, heq⟩
  have := List.of_mem_filter hkv
  rw [heq] at this
  simp [SKIP_UPDATE_FIELDS] at this

/-- The update loop runs through a prefix of successful `dm.set`
calls. -/
theorem upd_loop_prefix_ok (env : UpdEnv) (pre rest : List (String × String))
    (h : ∀ kv ∈ pre, ∃ b, env.dm_set kv.1 kv.2 = SetOutcome.done b) :
    upd_loop env (pre ++ rest)
      = ((upd_loop env rest).1, pre.map Prod.fst ++ (upd_loop env rest).2) := by
  induction pre with
  | nil => simp [upd_loop]
  | cons kv pre2 ih =>
    rcases h kv (by simp) with ⟨b, hb⟩
    rcases kv with ⟨k0, v0⟩
    have ih2 := ih (fun kv2 h2 => h kv2 (by simp [h2]))
    simp [upd_loop, hb, ih2]

/-- C3: `update_object_with_data` translates the host's Unauthorized
raised by a field set into an APIError 401 and a ValueError into an
APIError 400, and the field named "id" is never written through the
data manager (it is removed from a copy of the record before the update
loop). -/
theorem C3_update_object_with_data_errors (env : UpdEnv) (record : Rec)
    (pre : List (String × String)) (k v : String) (rest : List (String × String)) :
    (env.has_update_adapter = false → env.has_datamanager = true →
      purge record = pre ++ (k, v) :: rest →
      (∀ kv ∈ pre, ∃ b, env.dm_set kv.1 kv.2 = SetOutcome.done b) →
      (env.dm_set k v = SetOutcome.unauthorized →
        (update_object_with_data env record).1
          = Except.error ⟨401, "Not allowed to set the field " ++ k⟩)
      ∧ (∀ m, env.dm_set k v = SetOutcome.valueError m →
        (update_object_with_data env record).1 = Except.error ⟨400, m⟩))
    ∧ "id" ∉ (update_object_with_data env record).2 := by
  constructor
  · intro had hdm hsplit hpre
    have hloop := upd_loop_prefix_ok env pre ((k, v) :: rest) hpre
    constructor
    · intro hset
      simp only [upd_loop, hset] at hloop
      simp [update_object_with_data, had, hdm, hsplit, hloop]
    · intro m hset
      simp only [upd_loop, hset] at hloop
      simp [update_object_with_data, had, hdm, hsplit, hloop]
  · rcases had : env.has_update_adapter with _ | _
    · rcases hdm : env.has_datamanager with _ | _
      · simp [update_object_with_data, had, hdm]
      · rcases hq : upd_loop env (purge record) with ⟨res, log⟩
        have hsub : ∀ k2 ∈ log, k2 ∈ (purge record).map Prod.fst := by
          intro k2 hk2
          exact upd_loop_log_subset env (purge record) k2 (by rw [hq]; exact hk2)
        have hlog : "id" ∉ log := by
          intro hmem
          exact id_not_in_purge_keys record (hsub "id" hmem)
        rcases res with e | u
        · simp [update_object_with_data, had, hdm, hq, hlog]
        · rcases hv : env.validate record with _ | invalid
          · simp [update_object_with_data, had, hdm, hq, hv, hlog]
          · simp [update_object_with_data, had, hdm, hq, hv, hlog]
    · simp [update_object_with_data, had]

/-- Witness for C3 on the concrete data manager `envUpd`. -/
theorem C3_update_object_with_data_errors_witness :
    (update_object_with_data envUpd [("id", "X"), ("secret", "s")]).1
        = Except.error ⟨401, "Not allowed to set the field secret"⟩
    ∧ (update_object_with_data envUpd [("id", "X"), ("bad", "b")]).1
        = Except.error ⟨400, "invalid value"⟩
    ∧ "id" ∉ (update_object_with_data envUpd [("id", "X"), ("title", "T")]).2 := by
  refine ⟨?_, ?_, ?_⟩
  · exact ((C3_update_object_with_data_errors envUpd [("id", "X"), ("secret", "s")]
      [] "secret" "s" []).1 rfl rfl (by decide) (by decide)).1 (by decide)
  · exact ((C3_update_object_with_data_errors envUpd [("id", "X"), ("bad", "b")]
      [] "bad" "b" []).1 rfl rfl (by decide) (by decide)).2 "invalid value" (by decide)
  · exact (C3_update_object_with_data_errors envUpd [("id", "X"), ("title", "T")]
      [] "title" "T" []).2

end Update

/-- Bind on an `Except` error short-circuits. -/
theorem except_bind_error {ε α β : Type} (e : ε) (f : α → Except ε β) :
    (Except.error e >>= f) = Except.error e := rfl

/-- Bind on an `Except` success applies the continuation. -/
theorem except_bind_ok {ε α β : Type} (a : α) (f : α → Except ε β) :
    (Except.ok a >>= f) = f a := rfl

namespace Create

/-- C2 counterexample: with no uid and a record carrying neither
`parent_uid` nor `parent_path`, the target container cannot be
determined and `create_items` fails with status 404 (raised inside
`find_target_container`), not with status 400 as the claim states. -/
theorem C2_missing_container_gives_404 :
    create_items envCr1 (some "Document") none [[]]
      = Except.error ⟨404, "No target container found"⟩
    ∧ (⟨404, "No target container found"⟩ : APIErr).status ≠ 400 :=
  ⟨rfl, by decide⟩

/-- C2 (amended): `create_items` raises APIError 404 when the target
container cannot be determined, 400 when the container is determined
but the portal_type is not, 401 when `is_creation_allowed` returns
false for the resolved (portal_type, container) pair, and 400 when no
objects were created (empty request data). -/
theorem C2_create_items_error_statuses (env : CrEnv) (ptype : Option String)
    (u : String) (c : CObj) (pt : String) (record : Rec) (rest : List Rec) :
    (otruthy (rec_get record "parent_uid") = false →
      otruthy (rec_get (rec_remove record "parent_uid") "parent_path") = false →
      create_items env (some pt) none (record :: rest)
        = Except.error ⟨404, "No target container found"⟩)
    ∧ (env.get_object_by_uid u = some c → u ≠ "" →
      rec_get record "portal_type" = none →
      create_items env none (some u) (record :: rest)
        = Except.error ⟨400, "Please provide a container path/uid and portal_type"⟩)
    ∧ (env.get_object_by_uid u = some c → u ≠ "" → pt ≠ "" →
      env.is_creation_allowed pt c = false →
      create_items env (some pt) (some u) (record :: rest)
        = Except.error
            ⟨401, "Creation of this portal_type in the container is not allowed"⟩)
    ∧ (create_items env ptype (some u) []
        = Except.error ⟨400, "No Objects could be created"⟩
      ∧ create_items env ptype none []
        = Except.error ⟨400, "No Objects could be created"⟩) := by
  refine ⟨?_, ?_, ?_, ?_, ?_⟩
  · intro h1 h2
    simp [create_items, create_loop, find_target_container, h1, h2,
      Except.bind, Except.pure, except_bind_error, except_bind_ok]
  · intro hc hne hpt
    simp [create_items, create_loop, hc, hne, hpt, Except.bind, Except.pure,
      except_bind_error, except_bind_ok]
  · intro hc hne hptne hallow
    simp [create_items, create_loop, hc, hne, hptne, hallow,
      Except.bind, Except.pure, except_bind_error, except_bind_ok]
  · simp [create_items, create_loop, Except.bind, Except.pure,
      except_bind_error, except_bind_ok]
  · simp [create_items, create_loop, Except.bind, Except.pure,
      except_bind_error, except_bind_ok]

/-- Witness for the amended C2 on the concrete host `envCr1`. -/
theorem C2_create_items_error_statuses_witness :
    create_items envCr1 (some "Document") none [[("title", "T")]]
      = Except.error ⟨404, "No target container found"⟩
    ∧ create_items envCr1 none (some "uid-f") [[("title", "T")]]
      = Except.error ⟨400, "Please provide a container path/uid and portal_type"⟩
    ∧ create_items envCr1 (some "News") (some "uid-f") [[("title", "T")]]
      = Except.error ⟨401, "Creation of this portal_type in the container is not allowed"⟩
    ∧ create_items envCr1 (some "Document") (some "uid-f") []
      = Except.error ⟨400, "No Objects could be created"⟩ := by
  refine ⟨?_, ?_, ?_, ?_⟩
  · exact (C2_create_items_error_statuses envCr1 none "u" "c" "Document"
      [("title", "T")] []).1 (by rfl) (by rfl)
  · exact (C2_create_items_error_statuses envCr1 none "uid-f" "folder" "pt"
      [("title", "T")] []).2.1 (by rfl) (by decide) (by rfl)
  · exact (C2_create_items_error_statuses envCr1 none "uid-f" "folder" "News"
      [("title", "T")] []).2.2.1 (by rfl) (by decide) (by decide) (by rfl)
  · exact ((C2_create_items_error_statuses envCr1 (some "Document") "uid-f" "folder"
      "pt" [] []).2.2.2).1

end Create

namespace Batching

/-- C4: for every input sequence, batch size and start index,
`get_batch` returns a record with exactly the keys pagesize, next,
previous, page, pages, count and items; count is the length of the
whole input sequence, and items holds data items exactly for the
current page slice. -/
theorem C4_get_batch_shape (env : BatchEnv) (sequence : List Item) (size start : Nat) :
    ((get_batch env sequence size start).map Prod.fst
      = ["pagesize", "next", "previous", "page", "pages", "count", "items"])
    ∧ (jval_get (get_batch env sequence size start) "count"
        = some (JVal.num sequence.length))
    ∧ (jval_get (get_batch env sequence size start) "items"
        = some (JVal.arr (make_items_for env ((sequence.drop start).take size)))) := by
  refine ⟨rfl, rfl, rfl⟩

end Batching

namespace Search

/-- C5: a non-`None` uid makes `get_search_results` return exactly the
object resolved from that uid (the empty list when it resolves to
nothing) without querying the catalog; and on the catalog path, a
requested portal_type of "Plone Site" — as the argument or among the
request's portal_type values — appends the portal to the catalog
results. -/
theorem C5_get_search_results_uid_and_portal (env : SearchEnv)
    (portal_type : Option String) :
    (∀ u, (get_search_results env portal_type (some u)).results
          = to_list (env.get_object_by_uid u)
        ∧ (get_search_results env portal_type (some u)).catalog_queried = false)
    ∧ (portal_type = some "Plone Site" ∨ "Plone Site" ∈ env.request_portal_types →
        (get_search_results env portal_type none).results
          = env.catalog_search portal_type ++ [env.portal]) := by
  constructor
  · intro u
    exact ⟨rfl, rfl⟩
  · intro h
    rcases h with h | h
    · subst h
      simp [get_search_results, to_string, to_list]
    · simp [get_search_results, to_list, h]

/-- Witness for C5 on the concrete hosts. -/
theorem C5_get_search_results_uid_and_portal_witness :
    (get_search_results envSearch none (some "uid-1")).results = ["objU"]
    ∧ (get_search_results envSearch none (some "missing")).results = []
    ∧ (get_search_results envSearch none (some "uid-1")).catalog_queried = false
    ∧ (get_search_results envSearch (some "Plone Site") none).results
        = ["r1", "r2", "portal"]
    ∧ (get_search_results envSearch2 (some "Document") none).results
        = ["r1", "r2", "portal"] := by
  refine ⟨?_, ?_, ?_, ?_, ?_⟩
  · exact (((C5_get_search_results_uid_and_portal envSearch none).1 "uid-1").1).trans rfl
  · exact (((C5_get_search_results_uid_and_portal envSearch none).1 "missing").1).trans rfl
  · exact ((C5_get_search_results_uid_and_portal envSearch none).1 "uid-1").2
  · exact ((C5_get_search_results_uid_and_portal envSearch (some "Plone Site")).2
      (Or.inl rfl)).trans rfl
  · exact ((C5_get_search_results_uid_and_portal envSearch2 (some "Document")).2
      (Or.inr (by decide))).trans rfl

end Search

namespace Jsonify

/-- C8: `to_json_value` converts every date value (datetime.datetime,
datetime.date or Zope DateTime, also behind a callable or coming from
the data manager) to its ISO string representation, and replaces every
remaining value that `json.dumps` cannot serialize by the given default
instead of returning it. -/
theorem C8_to_json_value_dates_and_default (env : JsonEnv) (fieldname : String)
    (d : PyDate) (tag : String) (default : JVal) :
    (to_json_value env fieldname (some (PyVal.date d)) default = JVal.str d.iso)
    ∧ (to_json_value env fieldname (some (PyVal.callable (PyVal.date d))) default
        = JVal.str d.iso)
    ∧ (to_json_value env fieldname (some (PyVal.unjsonable tag)) default = default)
    ∧ (to_json_value env fieldname (some (PyVal.callable (PyVal.unjsonable tag))) default
        = default)
    ∧ (env.json_data fieldname = PyVal.date d →
        to_json_value env fieldname none default = JVal.str d.iso)
    ∧ (env.json_data fieldname = PyVal.unjsonable tag →
        to_json_value env fieldname none default = default) := by
  refine ⟨rfl, rfl, rfl, rfl, ?_, ?_⟩
  · intro h
    simp [to_json_value, h, is_date, to_iso_date, PyDate.iso]
  · intro h
    simp [to_json_value, h, is_date, is_json_serializable]

/-- Witness for C8 on the concrete data manager `envJson`. -/
theorem C8_to_json_value_dates_and_default_witness :
    to_json_value envJson "created" none JVal.null
        = JVal.str "2020-01-02T03:04:05+00:00"
    ∧ to_json_value envJson "blob" none (JVal.str "fallback") = JVal.str "fallback" := by
  constructor
  · exact (C8_to_json_value_dates_and_default envJson "created"
      (PyDate.zopeDT "2020-01-02T03:04:05+00:00") "t" JVal.null).2.2.2.2.1 rfl
  · exact (C8_to_json_value_dates_and_default envJson "blob"
      (PyDate.pydate "x") "file" (JVal.str "fallback")).2.2.2.2.2 rfl

end Jsonify

namespace CreateObject

/-- C10: `create_object` is atomic with respect to update failures: in
the standard (non-delegated, non-AnalysisRequest) creation path, when
applying the record data to the freshly created object raises an
APIError, the object is removed from the container again (by id,
bypassing permission checks) and exactly that error is re-raised, so
the container contents are unchanged. -/
theorem C10_create_object_atomic_on_update_failure (env : C10Env)
    (container : List Obj) (portal_type : String) (data : Rec) (e : APIErr)
    (hdeleg : env.is_creation_delegated = false)
    (har : portal_type ≠ "AnalysisRequest")
    (hauth : env.create_raises_unauthorized = false)
    (hfresh : ∀ o ∈ container, o.oid ≠ env.new_id)
    (hupd : env.update_result { oid := env.new_id, portal_type := portal_type }
      (rec_remove data "id") = Except.error e) :
    create_object env container portal_type data = (Except.error e, container) := by
  have hdel : del_object
      (container ++ [{ oid := env.new_id, portal_type := portal_type }]) env.new_id
      = container := by
    unfold del_object
    rw [List.filter_append]
    have h1 : container.filter (fun o => o.oid ≠ env.new_id) = container :=
      List.filter_eq_self.mpr (fun o ho => by simp [hfresh o ho])
    have h2 : ([{ oid := env.new_id, portal_type := portal_type }] : List Obj).filter
        (fun o => o.oid ≠ env.new_id) = [] := by
      simp
    rw [h1, h2, List.append_nil]
  simp [create_object, hdeleg, har, hauth, hupd, hdel]

/-- Witness for C10: a failing update removes the fresh object again. -/
theorem C10_create_object_atomic_on_update_failure_witness :
    create_object envC10 [{ oid := "old", portal_type := "Folder" }] "Document"
        [("id", "D"), ("title", "T")]
      = (Except.error ⟨400, "bad field"⟩, [{ oid := "old", portal_type := "Folder" }]) :=
  C10_create_object_atomic_on_update_failure envC10
    [{ oid := "old", portal_type := "Folder" }] "Document" [("id", "D"), ("title", "T")]
    ⟨400, "bad field"⟩ rfl (by decide) rfl (by decide) rfl

end CreateObject

end SenaiteJsonapi
